import Mathlib

/-!
Shallow embedding of the paytm-mcp repository (Python) in Lean 4.

The repository exposes Paytm payment-gateway operations as MCP tools
(src/paytm_mcp.py) delegating to three service classes
(src/services/payment_service.py, refund_service.py, order_list_service.py),
a shared HTTP helper (src/utils/base_service.py) and a date helper
(src/utils/system_utils.py).

Modelling conventions:
* Python exceptions are `PyErr`; a function that can raise returns
  `Except PyErr A`.  `str(e)` is `PyErr.toMessage`.
* Python `None` / missing dict keys are `Option`.  Python truthiness of an
  optional string (`None` and `""` are falsy) is `pyTruthy`.
* HTTP transports are parameters: a service body is a pure function of the
  (already parsed) gateway response, or of an `Except`-valued transport
  outcome when transport failures matter.
* Logging and `sleep` are side effects with no observable value; `sleep`
  calls made by the retry decorator are recorded as a list of delays.
* `datetime.datetime.now(ist)` is a parameter `now : Int`, the number of
  seconds since 1970-01-01T00:00:00 in the fixed UTC+05:30 offset; calendar
  conversion uses the standard civil-from-days algorithm, matching the Python
  proleptic Gregorian `datetime` arithmetic.
-/

namespace PaytmMCP

/-- A single-quote character, used inside modelled Python error messages. -/
def sq : String := String.mk [Char.ofNat 39]

/-- Model of a Python exception value (the constructors carry the text that
`str(e)` produces). -/
inductive PyErr where
  /-- Python `NameError` for an unbound variable: `str(e)` is
      `name <q>x<q> is not defined`. -/
  | nameError (ident : String)
  /-- Python `KeyError` on a dict `[]` access: `str(e)` is the quoted key. -/
  | keyError (key : String)
  /-- Python `ValueError`, e.g. from `int()` on a non-numeric string. -/
  | valueError (msg : String)
  /-- A `requests` transport exception (connection error, timeout, ...). -/
  | requestException (msg : String)
  /-- Any other exception. -/
  | other (msg : String)
deriving DecidableEq, Repr

/-- Rendering of `str(e)` for a modelled Python exception. -/
def PyErr.toMessage : PyErr → String
  | .nameError ident => "name " ++ sq ++ ident ++ sq ++ " is not defined"
  | .keyError key => sq ++ key ++ sq
  | .valueError msg => msg
  | .requestException msg => msg
  | .other msg => msg

/-- Python truthiness of an optional string: `None` and `""` are falsy,
every other string is truthy. -/
def pyTruthy : Option String → Bool
  | none => false
  | some s => !(s = "")

/-- Source src/paytm_mcp.py lines 88-91: the facade maps `None`, `""` and the
literal string `"null"` to `None` before calling the payment service. -/
def normalizeNullish : Option String → Option String
  | none => none
  | some s => if s = "" ∨ s = "null" then none else some s

/-- ASCII whitespace, as stripped by Python `int()` before parsing. -/
def isPySpace (c : Char) : Bool := c = ' ' || (9 ≤ c.toNat && c.toNat ≤ 13)

/-- Python `int(s)` on a string: optional surrounding whitespace, optional
sign, then decimal digits; raises `ValueError` otherwise
(used by `DateService.get_date_by_time_range`, src/utils/system_utils.py:16;
underscore digit separators are not modelled). -/
def parseIntPy (s : String) : Except PyErr Int :=
  let t : List Char :=
    ((s.data.dropWhile isPySpace).reverse.dropWhile isPySpace).reverse
  let neg : Bool := t.head? = some (Char.ofNat 45)
  let core : List Char :=
    match t with
    | c :: rest => if c = Char.ofNat 45 ∨ c = Char.ofNat 43 then rest else t
    | [] => []
  if core.length > 0 ∧ core.all Char.isDigit then
    let mag : Nat := core.foldl (fun a c => a * 10 + (c.toNat - 48)) 0
    .ok (if neg then -(mag : Int) else (mag : Int))
  else
    .error (.valueError
      ("invalid literal for int() with base 10: " ++ sq ++ s ++ sq))

/-! ### Civil calendar arithmetic (proleptic Gregorian, as in `datetime`) -/

/-- Days since 1970-01-01 of the civil date `(y, m, d)`
(standard civil-from-days / days-from-civil algorithm). -/
def daysFromCivil (y : Int) (m d : Nat) : Int :=
  let y' : Int := if m ≤ 2 then y - 1 else y
  let era : Int := (if 0 ≤ y' then y' else y' - 399).ediv 400
  let yoe : Int := y' - era * 400
  let mp : Int := if m > 2 then (m : Int) - 3 else (m : Int) + 9
  let doy : Int := (153 * mp + 2).ediv 5 + (d : Int) - 1
  let doe : Int := yoe * 365 + yoe.ediv 4 - yoe.ediv 100 + doy
  era * 146097 + doe - 719468

/-- Civil date `(y, m, d)` of the day `z` days after 1970-01-01. -/
def civilFromDays (z : Int) : Int × Nat × Nat :=
  let z' := z + 719468
  let era : Int := (if 0 ≤ z' then z' else z' - 146096).ediv 146097
  let doe : Int := z' - era * 146097
  let yoe : Int :=
    (doe - doe.ediv 1460 + doe.ediv 36524 - doe.ediv 146096).ediv 365
  let y : Int := yoe + era * 400
  let doy : Int := doe - (365 * yoe + yoe.ediv 4 - yoe.ediv 100)
  let mp : Int := (5 * doy + 2).ediv 153
  let d : Int := doy - (153 * mp + 2).ediv 5 + 1
  let m : Int := if mp < 10 then mp + 3 else mp - 9
  (if m ≤ 2 then y + 1 else y, m.toNat, d.toNat)

/-- Two-digit zero-padded decimal rendering of a field value. -/
def pad2 (n : Nat) : String :=
  if n < 10 then "0" ++ toString n else toString n

/-- Python `strftime(<percent>Y-<percent>m-<percent>dT<percent>H:<percent>M:<percent>S+05:30)`
applied to the IST instant `t` (seconds since the local epoch), as in
src/utils/system_utils.py lines 9 and 17. -/
def formatIST (t : Int) : String :=
  let day := t.fdiv 86400
  let secs := (t.fmod 86400).toNat
  let c := civilFromDays day
  toString c.1 ++ "-" ++ pad2 c.2.1 ++ "-" ++ pad2 c.2.2 ++
    "T" ++ pad2 (secs / 3600) ++ ":" ++ pad2 (secs % 3600 / 60) ++
    ":" ++ pad2 (secs % 60) ++ "+05:30"

/-- The IST instant (seconds since the local epoch) of a civil datetime. -/
def mkIST (y : Int) (mo d h mi s : Nat) : Int :=
  daysFromCivil y mo d * 86400 + (h : Int) * 3600 + (mi : Int) * 60 + (s : Int)

namespace DateService

/-- Model of `DateService.get_current_date` (src/utils/system_utils.py:4-9):
formats the current IST instant. -/
def get_current_date (now : Int) : String := formatIST now

/-- Model of `DateService.get_date_by_time_range` (src/utils/system_utils.py:11-17):
`now - timedelta(days=int(time_range))`, formatted; `int(time_range)` can
raise `ValueError`. -/
def get_date_by_time_range (now : Int) (time_range : String) :
    Except PyErr String := do
  let d ← parseIntPy time_range
  .ok (formatIST (now - d * 86400))

end DateService

/-- The date-resolution step shared by the `fetch_refund_list` and
`fetch_order_list` tools (src/paytm_mcp.py:257-259 and 299-301):
`if not (start_date and end_date): start_date = get_date_by_time_range(tr);
end_date = get_current_date()`. When both are truthy they are passed through
unchanged; otherwise both are recomputed (`get_date_by_time_range` first, so
its exception fires before `get_current_date` runs). -/
def resolveDateRange (now : Int) (start_ end_ : Option String)
    (time_range : String) : Except PyErr (String × String) :=
  if pyTruthy start_ && pyTruthy end_ then
    .ok (start_.getD "", end_.getD "")
  else do
    let s ← DateService.get_date_by_time_range now time_range
    .ok (s, DateService.get_current_date now)

/-! ### Outbound HTTP requests and the retry decorator (src/utils/base_service.py) -/

/-- The observable parameters of one outbound HTTP call made with the
`requests` library. `timeout` is the `timeout=` keyword argument in seconds;
`none` when the call site passes no timeout at all. -/
structure HttpRequest where
  method : String
  url : String
  timeout : Option Nat
deriving DecidableEq, Repr

/-- Value of `settings.PAYTM_BASE_URL` (src/config/settings.py:13). -/
def PAYTM_BASE_URL : String := "https://secure.paytmpayments.com"

namespace BaseService

/-- In `BaseService.__init__`, `self.timeout = 30` (src/utils/base_service.py:30). -/
def default_timeout : Nat := 30

/-- The request issued by `BaseService._make_request`
(src/utils/base_service.py:51-57): `requests.request(..., timeout=self.timeout)`. -/
def make_request_req (method url : String) : HttpRequest :=
  { method := method, url := url, timeout := some default_timeout }

end BaseService

/-- The loop of `retry_on_failure` (src/utils/base_service.py:13-22), with the
transport behaviour per attempt given by `f : Nat → Except PyErr A`
(attempts are 0-indexed, mirroring `range(max_retries)`).  Returns the
outcome of the wrapper — `.ok (some a)` on a successful call, `.ok none` when the
loop falls through to `return None`, `.error e` when the final-attempt
exception is re-raised — paired with the list of `sleep` delays
`delay * (attempt + 1)` performed between attempts. -/
def retryAux (f : Nat → Except PyErr A) (delay : ℚ) (max_retries : Nat) :
    Nat → Nat → Except PyErr (Option A) × List ℚ
  | _, 0 => (.ok none, [])
  | attempt, fuel + 1 =>
    match f attempt with
    | .ok a => (.ok (some a), [])
    | .error e =>
      if attempt = max_retries - 1 then (.error e, [])
      else
        let rest := retryAux f delay max_retries (attempt + 1) fuel
        (rest.1, delay * ((attempt : ℚ) + 1) :: rest.2)

/-- Model of `retry_on_failure(max_retries, delay)` applied to a call whose behaviour
on attempt `i` is `f i` (src/utils/base_service.py:9-24).  The
defaults are `max_retries = 3`, `delay = 1`. -/
def retry_on_failure (max_retries : Nat) (delay : ℚ)
    (f : Nat → Except PyErr A) : Except PyErr (Option A) × List ℚ :=
  retryAux f delay max_retries 0 max_retries

/-! ### PaymentService (src/services/payment_service.py) -/

/-- A JSON value, as far as the builder bodies need. -/
inductive JVal where
  | jstr (s : String)
  | jbool (b : Bool)
  | jnum (n : Nat)
  | jnull
  | jobj (fields : List (String × JVal))
deriving Repr

/-- Serialization of a possibly-`None` Python string into JSON. -/
def jsonOptStr : Option String → JVal
  | none => .jnull
  | some s => .jstr s

/-- Python `s.replace(" ", "_")` on a one-character pattern. -/
def underscore (s : String) : String :=
  String.mk (s.data.map fun c => if c = ' ' then Char.ofNat 95 else c)

namespace PaymentService

/-- Base url: `PaymentService.__init__` hardcodes its base url (src/services/payment_service.py:11). -/
def base_url : String := "https://secure.paytmpayments.com"

/-- The `paytmParams["body"]` dict built by `PaymentService.create_payment_link`
(src/services/payment_service.py:27-45), as the ordered key/value list that is
serialized and signed.  The `"amount"` key is appended only under
`if amount is not None` (line 44). -/
def create_payment_link_body (mid recipient_name purpose : String)
    (customer_email customer_mobile amount : Option String) :
    List (String × JVal) :=
  [ ("mid", .jstr mid),
    ("linkType", .jstr (if amount = none then "GENERIC" else "FIXED")),
    ("linkDescription", .jstr ("Payment for " ++ purpose)),
    ("linkName", .jstr (underscore purpose ++ "_" ++ underscore recipient_name)),
    ("sendSms", .jbool (pyTruthy customer_mobile)),
    ("sendEmail", .jbool (pyTruthy customer_email)),
    ("maxPaymentsAllowed", .jnum 1),
    ("customerContact", .jobj
      [ ("customerName", .jstr recipient_name),
        ("customerEmail", jsonOptStr customer_email),
        ("customerMobile", jsonOptStr customer_mobile) ]) ]
  ++ (if amount = none then [] else [("amount", jsonOptStr amount)])

/-- Runtime entry behaviour of `PaymentService.create_payment_link`
(src/services/payment_service.py:14-25): the debug-logging block at line 17
references the name `logger`, which payment_service.py never imports or
defines, so every call raises `NameError` there — before the envelope build
at lines 27-45 is ever reached, and before anything is signed or posted. -/
def create_payment_link_raises : Except PyErr String :=
  .error (.nameError "logger")

/-- The request issued by `PaymentService.create_payment_link`
(src/services/payment_service.py:58-62): `requests.post` with no `timeout=`
(reached only if the line-17 `NameError` on `logger` were fixed). -/
def create_link_req : HttpRequest :=
  { method := "POST", url := base_url ++ "/link/create", timeout := none }

/-- The request issued by `PaymentService.fetch_payment_links`
(src/services/payment_service.py:99-103): no `timeout=`. -/
def fetch_links_req : HttpRequest :=
  { method := "POST", url := base_url ++ "/link/fetch", timeout := none }

/-- The request issued by `PaymentService.fetch_transactions_for_link`
(src/services/payment_service.py:142-146): no `timeout=`. -/
def fetch_transactions_req : HttpRequest :=
  { method := "POST", url := base_url ++ "/link/fetchTransaction", timeout := none }

end PaymentService

namespace RefundService

/-- Base url: `RefundService.__init__` takes its base url from settings
(src/services/refund_service.py:12). -/
def base_url : String := PAYTM_BASE_URL

/-- The request issued by `RefundService.initiate_refund`
(src/services/refund_service.py:52-56): no `timeout=`. -/
def initiate_refund_req : HttpRequest :=
  { method := "POST", url := base_url ++ "/refund/apply", timeout := none }

/-- The request issued by `RefundService.check_refund_status`
(src/services/refund_service.py:123-127): no `timeout=`. -/
def check_refund_status_req : HttpRequest :=
  { method := "POST", url := base_url ++ "/v2/refund/status", timeout := none }

/-- The request issued by `RefundService.fetch_refund_list`
(src/services/refund_service.py:202-206): no `timeout=`. -/
def fetch_refund_list_req : HttpRequest :=
  { method := "POST", url := base_url ++ "/merchant-passbook/api/v1/refundList",
    timeout := none }

end RefundService

namespace OrderListService

/-- Base url: `OrderListService.__init__` takes its base url from settings
(src/services/order_list_service.py:21). -/
def base_url : String := PAYTM_BASE_URL

/-- The request issued by `OrderListService.fetch_order_list`
(src/services/order_list_service.py:73-77): no `timeout=`. -/
def fetch_order_list_req : HttpRequest :=
  { method := "POST", url := base_url ++ "/merchant-passbook/search/list/order/v2",
    timeout := none }

end OrderListService

/-! ### The tool facades (src/paytm_mcp.py)

The service call of each tool is abstracted as an `Except PyErr String`-valued
parameter; the codomain of the facade itself is `Except PyErr String`, where
`.error e` means the exception `e` escapes the tool into the caller. -/

/-- The `try: return service(...) except Exception as e: return str(e)`
shape shared by the tools. -/
def catchAll : Except PyErr String → String
  | .ok s => s
  | .error e => e.toMessage

/-- Returns `true` exactly when the tool lets an exception escape to its caller. -/
def raisesException : Except PyErr String → Bool
  | .error _ => true
  | .ok _ => false

namespace Facade

/-- Tool `create_payment_link` (src/paytm_mcp.py:55-102): normalizes
`customer_mobile` and `customer_email` (lines 88-91), then calls the payment
service inside a catch-all `try` (lines 92-102).  There is no code path that
checks the email-or-mobile precondition before calling the service. -/
def create_payment_link (recipient_name purpose : String)
    (customer_email customer_mobile amount : Option String)
    (service :
      String → String → Option String → Option String → Option String →
        Except PyErr String) :
    Except PyErr String :=
  let customer_mobile := normalizeNullish customer_mobile
  let customer_email := normalizeNullish customer_email
  .ok (catchAll
    (service recipient_name purpose customer_email customer_mobile amount))

/-- Tool `fetch_payment_links` (src/paytm_mcp.py:106-131): catch-all `try`;
the `if not links` test re-checks Python truthiness of the string from the service. -/
def fetch_payment_links (service : Unit → Except PyErr String) :
    Except PyErr String :=
  .ok (match service () with
    | .ok links => if links = "" then "No payment links found." else links
    | .error e => e.toMessage)

/-- Tool `fetch_transactions_for_link` (src/paytm_mcp.py:135-163). -/
def fetch_transactions_for_link (link_id : String)
    (service : String → Except PyErr String) : Except PyErr String :=
  .ok (match service link_id with
    | .ok transactions =>
      if transactions = "" then
        "No transactions found for link ID " ++ link_id ++ "."
      else transactions
    | .error e => e.toMessage)

/-- Tool `initiate_refund` (src/paytm_mcp.py:167-197): catch-all `try`. -/
def initiate_refund (service : Unit → Except PyErr String) :
    Except PyErr String :=
  .ok (catchAll (service ()))

/-- Tool `check_refund_status` (src/paytm_mcp.py:202-222): catch-all `try`. -/
def check_refund_status (service : Unit → Except PyErr String) :
    Except PyErr String :=
  .ok (catchAll (service ()))

/-- Tool `fetch_refund_list` (src/paytm_mcp.py:229-263): the date resolution
(lines 257-259) happens INSIDE the catch-all `try`, so a `ValueError` from
`int(time_range)` is converted to text like every other exception. -/
def fetch_refund_list (now : Int) (start_date end_date : Option String)
    (time_range : String) (service : String → String → Except PyErr String) :
    Except PyErr String :=
  .ok (catchAll (do
    let r ← resolveDateRange now start_date end_date time_range
    service r.1 r.2))

/-- Tool `fetch_order_list` (src/paytm_mcp.py:268-313): the date resolution
(lines 299-301) happens BEFORE the `try` block (line 302), so an exception
raised there propagates out of the tool uncaught. -/
def fetch_order_list (now : Int) (from_date to_date : Option String)
    (time_range : String) (service : String → String → Except PyErr String) :
    Except PyErr String := do
  let r ← resolveDateRange now from_date to_date time_range
  .ok (catchAll (service r.1 r.2))

end Facade

/-! ### Response normalizers -/

/-- A Python dict `[]` access on a field modelled as `Option`: raises
`KeyError(key)` when the key is absent. -/
def getKey (o : Option A) (key : String) : Except PyErr A :=
  match o with
  | some a => .ok a
  | none => .error (.keyError key)

/-- Rendering of a possibly-`None` value inside a Python f-string. -/
def optStr : Option String → String
  | none => "None"
  | some s => s

/-- The `resultInfo` object of the `body.resultInfo.resultStatus` endpoint
family. -/
structure ResultInfo where
  resultStatus : Option String
  resultMessage : Option String
deriving DecidableEq, Repr

/-- One entry of `response["body"]["links"]`; `status` is read with
`.get("status", "PENDING")`, the rest with `[]`. -/
structure LinkRec where
  linkId : Option String
  linkName : Option String
  shortUrl : Option String
  status : Option String
  createdDate : Option String
  expiryDate : Option String
deriving DecidableEq, Repr

/-- Parsed response shape for `/link/fetch`. -/
structure FetchLinksBody where
  resultInfo : Option ResultInfo
  links : Option (List LinkRec)
deriving DecidableEq, Repr

structure FetchLinksResp where
  body : Option FetchLinksBody
deriving DecidableEq, Repr

/-- The per-link line built by `PaymentService.fetch_payment_links`
(src/services/payment_service.py:111-118); a `[]` access on a missing key
raises `KeyError` out of the loop. -/
def formatLinkRec (l : LinkRec) : Except PyErr String := do
  let status := l.status.getD "PENDING"
  let linkId ← getKey l.linkId "linkId"
  let linkName ← getKey l.linkName "linkName"
  let shortUrl ← getKey l.shortUrl "shortUrl"
  let createdDate ← getKey l.createdDate "createdDate"
  let expiryDate ← getKey l.expiryDate "expiryDate"
  .ok ("Link ID: " ++ linkId ++ ", " ++
    "Name: " ++ linkName ++ ", " ++
    "Short URL: " ++ shortUrl ++ ", " ++
    "Status: " ++ status ++ ", " ++
    "Created: " ++ createdDate ++ ", " ++
    "Expires: " ++ expiryDate ++ "\n")

/-- The `for link in links` accumulation of `fetch_payment_links`. -/
def formatLinkRecs : List LinkRec → Except PyErr String
  | [] => .ok ""
  | l :: rest => do
    let s ← formatLinkRec l
    let t ← formatLinkRecs rest
    .ok (s ++ t)

/-- Model of `PaymentService.fetch_payment_links` (src/services/payment_service.py:87-122)
from the transport outcome onward: `transport` is the result of
`requests.post(...).json()` (`.error` when it raised). -/
def PaymentService.fetch_payment_links_service
    (transport : Except PyErr FetchLinksResp) : String :=
  match (do
    let resp ← transport
    let body ← getKey resp.body "body"
    let ri ← getKey body.resultInfo "resultInfo"
    let status ← getKey ri.resultStatus "resultStatus"
    if status = "SUCCESS" then do
      let links ← getKey body.links "links"
      match links with
      | [] => .ok "No payment links found."
      | _ => do
        let formatted ← formatLinkRecs links
        .ok ("Available Payment Links:\n" ++ formatted)
    else do
      let msg ← getKey ri.resultMessage "resultMessage"
      .ok ("Failed to fetch payment links: " ++ msg)
    : Except PyErr String) with
  | .ok s => s
  | .error e => "Error fetching payment links: " ++ e.toMessage

/-- One entry of the `orders` list of `/link/fetchTransaction`;
`customerPhoneNumber` and `customerEmail` are read with `.get(..., "N/A")`. -/
structure TxnRec where
  txnId : Option String
  orderId : Option String
  txnAmount : Option String
  orderStatus : Option String
  orderCompletedTime : Option String
  customerPhoneNumber : Option String
  customerEmail : Option String
deriving DecidableEq, Repr

structure FetchTxnsBody where
  resultInfo : Option ResultInfo
  orders : Option (List TxnRec)
deriving DecidableEq, Repr

structure FetchTxnsResp where
  body : Option FetchTxnsBody
deriving DecidableEq, Repr

/-- The per-transaction line of `PaymentService.fetch_transactions_for_link`
(src/services/payment_service.py:155-161). -/
def formatTxnRec (o : TxnRec) : Except PyErr String := do
  let txnId ← getKey o.txnId "txnId"
  let orderId ← getKey o.orderId "orderId"
  let txnAmount ← getKey o.txnAmount "txnAmount"
  let orderStatus ← getKey o.orderStatus "orderStatus"
  let completed ← getKey o.orderCompletedTime "orderCompletedTime"
  .ok ("Transaction ID: " ++ txnId ++ ", " ++
    "Order ID: " ++ orderId ++ ", " ++
    "Amount: " ++ txnAmount ++ ", " ++
    "Status: " ++ orderStatus ++ ", " ++
    "Completed: " ++ completed ++ ", " ++
    "Customer Phone: " ++ o.customerPhoneNumber.getD "N/A" ++ ", " ++
    "Customer Email: " ++ o.customerEmail.getD "N/A" ++ "\n")

def formatTxnRecs : List TxnRec → Except PyErr String
  | [] => .ok ""
  | o :: rest => do
    let s ← formatTxnRec o
    let t ← formatTxnRecs rest
    .ok (s ++ t)

/-- Model of `PaymentService.fetch_transactions_for_link`
(src/services/payment_service.py:124-165) from the transport outcome onward;
`orders` is read with `.get("orders", [])`. -/
def PaymentService.fetch_transactions_service (link_id : String)
    (transport : Except PyErr FetchTxnsResp) : String :=
  match (do
    let resp ← transport
    let body ← getKey resp.body "body"
    let ri ← getKey body.resultInfo "resultInfo"
    let status ← getKey ri.resultStatus "resultStatus"
    if status = "SUCCESS" then
      match body.orders.getD [] with
      | [] => .ok ("No transactions found for link ID " ++ link_id ++ ".")
      | orders => do
        let formatted ← formatTxnRecs orders
        .ok ("Transactions for Link ID " ++ link_id ++ ":\n" ++ formatted)
    else do
      let msg ← getKey ri.resultMessage "resultMessage"
      .ok ("Failed to fetch transactions: " ++ msg)
    : Except PyErr String) with
  | .ok s => s
  | .error e => "Error fetching transactions: " ++ e.toMessage

/-- Parsed `/link/create` response shape. -/
structure CreateLinkBody where
  resultInfo : Option ResultInfo
  shortUrl : Option String
  linkId : Option String
deriving DecidableEq, Repr

structure CreateLinkResp where
  body : Option CreateLinkBody
deriving DecidableEq, Repr

/-- In Python, `PaymentService.create_payment_link` returns a dict on success and a
string otherwise (src/services/payment_service.py:72-84). -/
inductive CreateLinkResult where
  /-- The success dict `{payment_link_id, short_url, email_sent, sms_sent}`. -/
  | payload (payment_link_id short_url : String) (email_sent sms_sent : Bool)
  /-- Any of the textual outcomes. -/
  | message (text : String)
deriving DecidableEq, Repr

/-- Model of `PaymentService.create_payment_link` (src/services/payment_service.py:57-84)
from the transport outcome onward. -/
def PaymentService.create_payment_link_service
    (customer_email customer_mobile : Option String)
    (transport : Except PyErr CreateLinkResp) : CreateLinkResult :=
  match (do
    let resp ← transport
    let body ← getKey resp.body "body"
    let ri ← getKey body.resultInfo "resultInfo"
    let status ← getKey ri.resultStatus "resultStatus"
    if status = "SUCCESS" then do
      let short_url ← getKey body.shortUrl "shortUrl"
      let link_id ← getKey body.linkId "linkId"
      .ok (CreateLinkResult.payload link_id short_url
        (pyTruthy customer_email) (pyTruthy customer_mobile))
    else do
      let msg ← getKey ri.resultMessage "resultMessage"
      .ok (.message ("Failed to create payment link: " ++ msg))
    : Except PyErr CreateLinkResult) with
  | .ok r => r
  | .error e => .message ("Error creating payment link: " ++ e.toMessage)

/-- Parsed `/refund/apply` response, all fields reached with `.get` chains
(src/services/refund_service.py:63-69), so absence never raises. -/
structure RefundInitResp where
  resultStatus : Option String
  resultMsg : Option String
  resultCode : Option String
  refundId : Option String
  txnId : Option String
  refundAmount : Option String
deriving DecidableEq, Repr

/-- The `status_message` block of `RefundService.initiate_refund`
(src/services/refund_service.py:72-79). -/
def refundStatusMessage (resp : RefundInitResp) : String :=
  "Refund Status: " ++ optStr resp.resultStatus ++ "\n" ++
  "Message: " ++ optStr resp.resultMsg ++ "\n" ++
  "Code: " ++ optStr resp.resultCode ++ "\n" ++
  "Refund ID: " ++ resp.refundId.getD "" ++ "\n" ++
  "Paytm Txn ID: " ++ resp.txnId.getD "" ++ "\n" ++
  "Refund Amount: " ++ resp.refundAmount.getD "" ++ "\n"

/-- Model of `RefundService.initiate_refund` (src/services/refund_service.py:50-89)
from the transport outcome onward: the `status_message` block and the
three-way classification on `resultStatus` (lines 81-86). -/
def RefundService.initiate_refund_service
    (transport : Except PyErr RefundInitResp) : String :=
  match transport with
  | .error e => "Error initiating refund: " ++ e.toMessage
  | .ok resp =>
    let status_message := refundStatusMessage resp
    if resp.resultStatus = some "PENDING" then
      "Refund initiated successfully and is pending:\n" ++ status_message
    else if resp.resultStatus = some "TXN_FAILURE" then
      "Refund initiation failed:\n" ++ status_message
    else
      "Unexpected response:\n" ++ status_message

/-- Single call: `RefundService.initiate_refund` issues exactly one `requests.post`
(src/services/refund_service.py:52); it is not decorated with
`retry_on_failure` and never calls `BaseService._make_request`, so of a
per-attempt transport behaviour only attempt `0` is ever consulted. -/
def RefundService.initiate_refund_with_transport
    (f : Nat → Except PyErr RefundInitResp) : String :=
  RefundService.initiate_refund_service (f 0)

/-- One entry of the refund list, every field reached with `[]`
(src/services/refund_service.py:226-232). -/
structure RefundRec where
  orderId : Option String
  refundId : Option String
  refId : Option String
  txnAmount : Option String
  refundAmount : Option String
  acceptRefundStatus : Option String
  acceptRefundTimeStamp : Option String
deriving DecidableEq, Repr

/-- Parsed `/merchant-passbook/api/v1/refundList` response: this endpoint
family keys `status`, `count`, `orders` at top level (`[]` accesses). -/
structure RefundListResp where
  status : Option String
  count : Option String
  orders : Option (List RefundRec)
  errorMessage : Option String
deriving DecidableEq, Repr

/-- The record formatting of the `for order in orders` loop
(src/services/refund_service.py:223-244): the `try`/`except: continue`
inside the loop silently drops a record as soon as one of its seven `[]`
accesses raises `KeyError`, so a record contributes its line exactly when
every field is present. -/
def formatRefundRec (o : RefundRec) : Option String :=
  match o.orderId, o.refundId, o.refId, o.txnAmount, o.refundAmount,
      o.acceptRefundStatus, o.acceptRefundTimeStamp with
  | some a, some b, some c, some d, some e, some f, some g =>
    some ("Order ID: " ++ a ++ ", " ++
      "Refund ID: " ++ b ++ ", " ++
      "Ref ID: " ++ c ++ ", " ++
      "Txn Amount: " ++ d ++ ", " ++
      "Refund Amount: " ++ e ++ ", " ++
      "Status: " ++ f ++ ", " ++
      "Refund Time: " ++ g ++ "\n")
  | _, _, _, _, _, _, _ => none

/-- The loop body of lines 223-244: append the line of the record, or keep `acc`
unchanged when `formatRefundRec` skips the record. -/
def refundStep (acc : String) (o : RefundRec) : String :=
  match formatRefundRec o with
  | some s => acc ++ s
  | none => acc

/-- Transport outcome of the refund-list call (src/services/refund_service.py:202-215):
the raw post (which may raise), the `response.ok` check, and the JSON decode. -/
inductive RefundListTransport where
  | raised (e : PyErr)
  | httpError (status_code : Nat)
  | badJson
  | parsed (r : RefundListResp)

/-- Model of `RefundService.fetch_refund_list` (src/services/refund_service.py:151-254)
from its validation steps onward.  The inner `except` (line 250) catches only
`requests.RequestException`; everything else falls to the outer handler
(line 253).  In the business-rejection branch (line 247) the source reads
`orders.get("errorMessage", ...)`, but `orders` is only assigned in the
success branch (line 217), so Python raises
`NameError: name <q>orders<q> is not defined`, which the outer handler turns
into text — the gateway-supplied message is lost. -/
def RefundService.fetch_refund_list_transport_part (t : RefundListTransport) :
    String :=
  match t with
    | .raised e =>
      match e with
      | .requestException m => "Network error while fetching refund list: " ++ m
      | _ => "Error fetching refund list: " ++ e.toMessage
    | .httpError code => "API request failed with status code: " ++ toString code
    | .badJson => "Error: Invalid JSON response from server"
    | .parsed r =>
      match (do
        let st ← getKey r.status "status"
        if st = "SUCCESS" then do
          let orders ← getKey r.orders "orders"
          match orders with
          | [] => .ok "No refunds found for the given date range."
          | _ => do
            let c ← getKey r.count "count"
            .ok (List.foldl refundStep
              ("Refunds List (Count: " ++ c ++ ")") orders)
        else
          .error (.nameError "orders")
        : Except PyErr String) with
      | .ok s => s
      | .error e => "Error fetching refund list: " ++ e.toMessage

/-- The validation steps of `RefundService.fetch_refund_list`
(src/services/refund_service.py:174-178) in front of the transport part:
`if not all([start_date, end_date])`, then `if not self.mid`. -/
def RefundService.fetch_refund_list_service (mid start_date end_date : String)
    (t : RefundListTransport) : String :=
  if start_date = "" ∨ end_date = "" then
    "Error: start_date and end_date are required parameters"
  else if mid = "" then
    "Error: Merchant ID (mid) is not configured"
  else
    RefundService.fetch_refund_list_transport_part t

/-- One entry of the order list, every field reached with `.get`
(src/services/order_list_service.py:110-123). -/
structure OrderRec where
  merchantOrderId : Option String
  txnId : Option String
  amount : Option String
  payMode : Option String
  orderCreatedTime : Option String
  orderCompletedTime : Option String
  orderSearchStatus : Option String
  merchantName : Option String
  vanId : Option String
  rrn : Option String
  vanIfscCode : Option String
deriving DecidableEq, Repr

/-- Parsed order-list response: `resultStatus`/`resultMsg` are reached with
`.get` chains under `body.resultInfo`, `orders` with `.get("orders", [])`. -/
structure OrderListResp where
  resultStatus : Option String
  resultMsg : Option String
  orders : Option (List OrderRec)
deriving DecidableEq, Repr

/-- Transport outcome of the order-list call
(src/services/order_list_service.py:73-94): `raise_for_status` turns non-2xx
into a raised `requests` exception, then the empty-text and JSON-decode checks. -/
inductive OrderListTransport where
  | raised (e : PyErr)
  | emptyText
  | badJson (msg : String)
  | parsed (r : OrderListResp)

/-- The per-order block of `OrderListService.fetch_order_list`
(src/services/order_list_service.py:109-124); the currency sign is the byte
sequence the source file carries before `{order.get(<q>amount<q>, ...)}`. -/
def formatOrderRec (o : OrderRec) : String :=
  "\nOrder ID: " ++ o.merchantOrderId.getD "N/A" ++
  "\nTransaction ID: " ++ o.txnId.getD "N/A" ++
  "\nAmount: â‚¹" ++ o.amount.getD "N/A" ++
  "\nPayment Mode: " ++ o.payMode.getD "N/A" ++
  "\nCreated Time: " ++ o.orderCreatedTime.getD "N/A" ++
  "\nCompleted Time: " ++ o.orderCompletedTime.getD "N/A" ++
  "\nStatus: " ++ o.orderSearchStatus.getD "N/A" ++
  "\nMerchant Name: " ++ o.merchantName.getD "N/A" ++
  (if pyTruthy o.vanId then "\nVAN ID: " ++ o.vanId.getD "" else "") ++
  (if pyTruthy o.rrn then "\nRRN: " ++ o.rrn.getD "" else "") ++
  (if pyTruthy o.vanIfscCode then "\nVAN IFSC Code: " ++ o.vanIfscCode.getD "" else "") ++
  "\n" ++ String.mk (List.replicate 50 (Char.ofNat 45))

/-- Model of `OrderListService.fetch_order_list` (src/services/order_list_service.py:48-135)
from the transport outcome onward.  The first `except` (line 132) catches
`requests.exceptions.RequestException`, the second (line 134) everything else. -/
def OrderListService.fetch_order_list_service (page_number : Nat)
    (t : OrderListTransport) : String :=
  match t with
  | .raised e =>
    match e with
    | .requestException m => "Failed to fetch order list: " ++ m
    | _ => "Unexpected error while fetching order list: " ++ e.toMessage
  | .emptyText => "Empty response received from Paytm API"
  | .badJson m => "Invalid JSON response from Paytm API: " ++ m
  | .parsed r =>
    if r.resultStatus ≠ some "SUCCESS" then
      "Error fetching order list: " ++ r.resultMsg.getD "Unknown error"
    else
      match r.orders.getD [] with
      | [] => "No orders found for the given criteria."
      | orders =>
        "Order List:\n" ++
          List.foldl (fun acc o => acc ++ formatOrderRec o) "" orders ++
          "\n\nPage " ++ toString page_number ++
          "\nTotal Records: " ++ toString orders.length

example : parseIntPy "7" = .ok 7 := rfl
example : parseIntPy " -12 " = .ok (-12) := rfl
example : (parseIntPy "abc").isOk = false := rfl
example : formatIST (mkIST 2024 1 15 10 0 0) = "2024-01-15T10:00:00+05:30" :=
  rfl
example :
    resolveDateRange (mkIST 2024 1 15 10 0 0) none none "7" =
      .ok ("2024-01-08T10:00:00+05:30", "2024-01-15T10:00:00+05:30") :=
  rfl
example : formatIST (mkIST 2024 3 1 0 0 0 - 86400) = "2024-02-29T00:00:00+05:30" :=
  rfl

/-! ### Shared proof helpers -/

/-- Reduction of an `Except` bind on a success value. -/
theorem exceptOkBind (a : α) (f : α → Except PyErr β) :
    (Except.ok a : Except PyErr α) >>= f = f a := rfl

/-- Two strings with distinct leading characters are distinct. -/
theorem ne_of_head_char {s t : String} (c d : Char)
    (hs : s.data.head? = some c) (ht : t.data.head? = some d)
    (hcd : c ≠ d) : s ≠ t := by
  intro he
  rw [he] at hs
  rw [hs] at ht
  exact hcd (Option.some.inj ht)

/-- Convenience constructor for a parsed `/link/fetch` response. -/
def linksResp (status msg : Option String) (links : Option (List LinkRec)) :
    FetchLinksResp :=
  { body := some { resultInfo := some { resultStatus := status, resultMessage := msg }, links := links } }

/-- Convenience constructor for a parsed `/link/fetchTransaction` response. -/
def txnsResp (status msg : Option String) (orders : Option (List TxnRec)) :
    FetchTxnsResp :=
  { body := some { resultInfo := some { resultStatus := status, resultMessage := msg }, orders := orders } }

/-- Skipping the validation steps of `fetch_refund_list` when all three
parameters are non-empty. -/
theorem fetch_refund_list_service_validated (mid sd ed : String)
    (hm : mid ≠ "") (hs : sd ≠ "") (he : ed ≠ "") (t : RefundListTransport) :
    RefundService.fetch_refund_list_service mid sd ed t
      = RefundService.fetch_refund_list_transport_part t := by
  unfold RefundService.fetch_refund_list_service
  rw [if_neg (by simp [hs, he]), if_neg hm]

/-! ### Claim theorems -/

/-- C1: six of the seven tools wrap their whole body in a catch-all `try`,
so for every service behaviour they return text and never let an exception
out; but `fetch_order_list` resolves its date range before entering its
`try` block, so the `ValueError` from `int(time_range)` on a non-numeric
`time_range` (here `"abc"`, with no explicit dates given) propagates across
the facade boundary — the code contradicts the claim for that one tool. -/
theorem c1_fetch_order_list_exception_escapes :
    (∀ (r p : String) (e m a : Option String) svc,
      raisesException (Facade.create_payment_link r p e m a svc) = false)
    ∧ (∀ svc, raisesException (Facade.fetch_payment_links svc) = false)
    ∧ (∀ (lid : String) svc,
        raisesException (Facade.fetch_transactions_for_link lid svc) = false)
    ∧ (∀ svc, raisesException (Facade.initiate_refund svc) = false)
    ∧ (∀ svc, raisesException (Facade.check_refund_status svc) = false)
    ∧ (∀ (now : Int) (sd ed : Option String) (tr : String) svc,
        raisesException (Facade.fetch_refund_list now sd ed tr svc) = false)
    ∧ Facade.fetch_order_list (mkIST 2024 1 15 10 0 0) none none "abc"
        (fun _ _ => .ok "service never reached")
      = .error (.valueError
          ("invalid literal for int() with base 10: " ++ sq ++ "abc" ++ sq)) :=
  ⟨fun _ _ _ _ _ _ => rfl, fun _ => rfl, fun _ _ => rfl, fun _ => rfl,
   fun _ => rfl, fun _ _ _ _ _ => rfl, rfl⟩

/-- C2 counterexample: with `customer_email` and `customer_mobile` both
normalized to `None` (either as sentinel strings or as `None` outright), the
facade still invokes the payment service — whose output it returns verbatim —
instead of returning a clarification message. -/
theorem c2_counterexample_builder_invoked_without_contact :
    Facade.create_payment_link "Asha" "Consulting" (some "") (some "null") none
        (fun _ _ _ _ _ => .ok "SERVICE INVOKED")
      = .ok "SERVICE INVOKED"
    ∧ Facade.create_payment_link "Asha" "Consulting" none none none
        (fun _ _ _ _ _ => .ok "ENVELOPE BUILT AND POSTED")
      = .ok "ENVELOPE BUILT AND POSTED" := ⟨rfl, rfl⟩

/-- C2 amended: the facade normalizes `None`/`""`/`"null"` to an absent
value, but performs no email-or-mobile guard: for every input — in
particular when both contact fields normalize to `None` — it invokes the
payment service on the normalized fields and returns no clarification
message.  The invoked service then raises `NameError` on the unbound name
`logger` (src/services/payment_service.py:17) before any envelope is built,
and the facade catch-all returns that exception text; the clarification
requirement lives only in the tool docstring addressed to the model. -/
theorem c2_amended_normalization_without_guard :
    (normalizeNullish none = none ∧ normalizeNullish (some "") = none
      ∧ normalizeNullish (some "null") = none)
    ∧ (∀ (r p : String) (e m a : Option String) svc,
        Facade.create_payment_link r p e m a svc
          = .ok (catchAll (svc r p (normalizeNullish e) (normalizeNullish m) a)))
    ∧ (∀ (r p : String) (e m a : Option String),
        Facade.create_payment_link r p e m a
            (fun _ _ _ _ _ => PaymentService.create_payment_link_raises)
          = .ok ("name " ++ sq ++ "logger" ++ sq ++ " is not defined")) :=
  ⟨⟨rfl, rfl, rfl⟩, fun _ _ _ _ _ _ => rfl, fun _ _ _ _ _ => rfl⟩

/-- C3: on a parsed business rejection, `fetch_refund_list` does not return
the gateway-supplied message: line 247 reads `errorMessage` off the unbound
variable `orders`, so the operation returns the `NameError` text instead of
the intended `Failed to fetch refund list from refund service: <message>` —
the gateway message is lost. -/
theorem c3_refund_list_rejection_drops_gateway_message :
    RefundService.fetch_refund_list_service "MID123"
        "2024-01-01T00:00:00+05:30" "2024-01-07T00:00:00+05:30"
        (.parsed { status := some "FAILURE", count := none, orders := none,
                   errorMessage := some "Invalid merchant id" })
      = "Error fetching refund list: name " ++ sq ++ "orders" ++ sq
          ++ " is not defined"
    ∧ RefundService.fetch_refund_list_service "MID123"
        "2024-01-01T00:00:00+05:30" "2024-01-07T00:00:00+05:30"
        (.parsed { status := some "FAILURE", count := none, orders := none,
                   errorMessage := some "Invalid merchant id" })
      ≠ "Failed to fetch refund list from refund service: Invalid merchant id" :=
  ⟨rfl, by decide⟩

/-- C4 counterexample: the cited tool operation `initiate_refund` performs a
single `requests.post` with no retry wrapper, so a transport that fails on
attempts 1 and 2 and would succeed on attempt 3 does NOT yield the
successful result — the attempt-1 exception is surfaced immediately (second
conjunct: the attempt-3 response, had it been reached, classifies as the
pending-success result). -/
theorem c4_counterexample_no_retry_in_tool_ops :
    RefundService.initiate_refund_with_transport
        (fun i => if i < 2 then .error (.requestException "Connection aborted")
          else .ok { resultStatus := some "PENDING",
                     resultMsg := some "Refund accepted",
                     resultCode := some "601", refundId := some "R1",
                     txnId := some "T1", refundAmount := some "10.00" })
      = "Error initiating refund: Connection aborted"
    ∧ RefundService.initiate_refund_service
        (.ok { resultStatus := some "PENDING",
               resultMsg := some "Refund accepted",
               resultCode := some "601", refundId := some "R1",
               txnId := some "T1", refundAmount := some "10.00" })
      = "Refund initiated successfully and is pending:\n"
          ++ refundStatusMessage
            { resultStatus := some "PENDING", resultMsg := some "Refund accepted",
              resultCode := some "601", refundId := some "R1",
              txnId := some "T1", refundAmount := some "10.00" } :=
  ⟨rfl, rfl⟩

/-- C4 amended: the `retry_on_failure` decorator does implement up to
`max_retries = 3` attempts with `sleep(delay * attempt)` between them,
surfacing the exception of the final attempt only after retries exhaust — but it
decorates only `BaseService._make_request`, which no tool operation calls:
`initiate_refund` (like the other operations) issues exactly one unretried
request, consulting only attempt 0 of any transport behaviour. -/
theorem c4_amended_retry_unused_by_operations :
    (∀ (delay : ℚ) (a : String) (e0 e1 : PyErr),
      retry_on_failure 3 delay
          (fun i => if i = 0 then .error e0
            else if i = 1 then .error e1 else .ok a)
        = (.ok (some a), [delay * 1, delay * 2]))
    ∧ (∀ (delay : ℚ) (e0 e1 e2 : PyErr),
      retry_on_failure 3 delay
          (fun i => if i = 0 then .error e0
            else if i = 1 then .error e1 else .error e2
            : Nat → Except PyErr String)
        = (.error e2, [delay * 1, delay * 2]))
    ∧ (∀ f, RefundService.initiate_refund_with_transport f
        = RefundService.initiate_refund_service (f 0)) := by
  refine ⟨?_, ?_, fun _ => rfl⟩ <;> intros <;>
    simp [retry_on_failure, retryAux] <;> norm_num

/-- C8 counterexample: the requests the tool operations actually issue carry
no timeout at all, so they are not issued with the fixed 30-second timeout. -/
theorem c8_counterexample_no_timeout_on_service_requests :
    OrderListService.fetch_order_list_req.timeout = none
    ∧ PaymentService.create_link_req.timeout ≠ some BaseService.default_timeout :=
  ⟨rfl, by decide⟩

/-- C8 amended: the fixed 30-second per-request timeout exists only in
`BaseService._make_request`; the seven `requests.post` calls the tool
operations actually perform pass no `timeout=` argument. -/
theorem c8_amended_timeout_only_in_unused_helper :
    (∀ method url : String,
      (BaseService.make_request_req method url).timeout = some 30)
    ∧ PaymentService.create_link_req.timeout = none
    ∧ PaymentService.fetch_links_req.timeout = none
    ∧ PaymentService.fetch_transactions_req.timeout = none
    ∧ RefundService.initiate_refund_req.timeout = none
    ∧ RefundService.check_refund_status_req.timeout = none
    ∧ RefundService.fetch_refund_list_req.timeout = none
    ∧ OrderListService.fetch_order_list_req.timeout = none :=
  ⟨fun _ _ => rfl, rfl, rfl, rfl, rfl, rfl, rfl, rfl⟩

/-- Business-rejection outcome of `fetch_payment_links`. -/
theorem fetch_payment_links_rejected (st msg : String)
    (links : Option (List LinkRec)) (hst : st ≠ "SUCCESS") :
    PaymentService.fetch_payment_links_service
        (.ok (linksResp (some st) (some msg) links))
      = "Failed to fetch payment links: " ++ msg := by
  simp [PaymentService.fetch_payment_links_service, linksResp, getKey,
    exceptOkBind, hst]

/-- Business-rejection outcome of `fetch_transactions_for_link`. -/
theorem fetch_transactions_rejected (lid st msg : String)
    (orders : Option (List TxnRec)) (hst : st ≠ "SUCCESS") :
    PaymentService.fetch_transactions_service lid
        (.ok (txnsResp (some st) (some msg) orders))
      = "Failed to fetch transactions: " ++ msg := by
  simp [PaymentService.fetch_transactions_service, txnsResp, getKey,
    exceptOkBind, hst]

/-- Business-rejection outcome of the refund-list transport part (this is
the `NameError` text of line 247, see C3). -/
theorem refund_list_transport_rejected (st : String) (cnt em : Option String)
    (ords : Option (List RefundRec)) (hst : st ≠ "SUCCESS") :
    RefundService.fetch_refund_list_transport_part
        (.parsed { status := some st, count := cnt, orders := ords,
                   errorMessage := em })
      = "Error fetching refund list: name " ++ sq ++ "orders" ++ sq
          ++ " is not defined" := by
  simp [RefundService.fetch_refund_list_transport_part, getKey, exceptOkBind,
    hst, PyErr.toMessage]
  decide

/-- Business-rejection outcome of `fetch_order_list`. -/
theorem order_list_rejected (pn : Nat) (rs msg : Option String)
    (ords : Option (List OrderRec)) (hrs : rs ≠ some "SUCCESS") :
    OrderListService.fetch_order_list_service pn
        (.parsed { resultStatus := rs, resultMsg := msg, orders := ords })
      = "Error fetching order list: " ++ msg.getD "Unknown error" := by
  simp [OrderListService.fetch_order_list_service, hrs]

/-- C5: for each of the four list-style operations, a gateway success
response carrying zero records yields the distinct per-operation
no-records text, and the business-rejection outcome is a string that can
never equal that text (for `fetch_refund_list` the rejection text is the
`NameError` text of line 247, still distinct from the empty text). -/
theorem c5_empty_vs_failure_distinct :
    (∀ msg : Option String,
      PaymentService.fetch_payment_links_service
          (.ok (linksResp (some "SUCCESS") msg (some [])))
        = "No payment links found.")
    ∧ (∀ (st msg : String) (links : Option (List LinkRec)), st ≠ "SUCCESS" →
        PaymentService.fetch_payment_links_service
            (.ok (linksResp (some st) (some msg) links))
          = "Failed to fetch payment links: " ++ msg
        ∧ "Failed to fetch payment links: " ++ msg ≠ "No payment links found.")
    ∧ (∀ (lid : String) (msg : Option String),
        PaymentService.fetch_transactions_service lid
            (.ok (txnsResp (some "SUCCESS") msg (some [])))
          = "No transactions found for link ID " ++ lid ++ ".")
    ∧ (∀ (lid st msg : String) (orders : Option (List TxnRec)),
        st ≠ "SUCCESS" →
        PaymentService.fetch_transactions_service lid
            (.ok (txnsResp (some st) (some msg) orders))
          = "Failed to fetch transactions: " ++ msg
        ∧ "Failed to fetch transactions: " ++ msg
            ≠ "No transactions found for link ID " ++ lid ++ ".")
    ∧ (∀ (mid sd ed : String) (cnt em : Option String),
        mid ≠ "" → sd ≠ "" → ed ≠ "" →
        RefundService.fetch_refund_list_service mid sd ed
            (.parsed { status := some "SUCCESS", count := cnt,
                       orders := some [], errorMessage := em })
          = "No refunds found for the given date range.")
    ∧ (∀ (mid sd ed st : String) (cnt em : Option String)
          (ords : Option (List RefundRec)),
        mid ≠ "" → sd ≠ "" → ed ≠ "" → st ≠ "SUCCESS" →
        RefundService.fetch_refund_list_service mid sd ed
            (.parsed { status := some st, count := cnt, orders := ords,
                       errorMessage := em })
          = "Error fetching refund list: name " ++ sq ++ "orders" ++ sq
              ++ " is not defined"
        ∧ ("Error fetching refund list: name " ++ sq ++ "orders" ++ sq
              ++ " is not defined")
            ≠ "No refunds found for the given date range.")
    ∧ (∀ (pn : Nat) (msg : Option String),
        OrderListService.fetch_order_list_service pn
            (.parsed { resultStatus := some "SUCCESS", resultMsg := msg,
                       orders := some [] })
          = "No orders found for the given criteria.")
    ∧ (∀ (pn : Nat) (rs msg : Option String) (ords : Option (List OrderRec)),
        rs ≠ some "SUCCESS" →
        OrderListService.fetch_order_list_service pn
            (.parsed { resultStatus := rs, resultMsg := msg, orders := ords })
          = "Error fetching order list: " ++ msg.getD "Unknown error"
        ∧ ("Error fetching order list: " ++ msg.getD "Unknown error")
            ≠ "No orders found for the given criteria.") := by
  refine ⟨fun _ => rfl, ?_, fun _ _ => rfl, ?_, ?_, ?_, fun _ _ => rfl, ?_⟩
  · intro st msg links hst
    exact ⟨fetch_payment_links_rejected st msg links hst,
      ne_of_head_char (Char.ofNat 70) (Char.ofNat 78) rfl rfl (by decide)⟩
  · intro lid st msg orders hst
    exact ⟨fetch_transactions_rejected lid st msg orders hst,
      ne_of_head_char (Char.ofNat 70) (Char.ofNat 78) rfl rfl (by decide)⟩
  · intro mid sd ed cnt em hm hs he
    rw [fetch_refund_list_service_validated mid sd ed hm hs he]
    exact rfl
  · intro mid sd ed st cnt em ords hm hs he hst
    rw [fetch_refund_list_service_validated mid sd ed hm hs he]
    exact ⟨refund_list_transport_rejected st cnt em ords hst, by decide⟩
  · intro pn rs msg ords hrs
    exact ⟨order_list_rejected pn rs msg ords hrs,
      ne_of_head_char (Char.ofNat 69) (Char.ofNat 78) rfl rfl (by decide)⟩

/-- C5 witness: the theorem applied at concrete inputs, with every
hypothesis discharged there. -/
theorem c5_empty_vs_failure_distinct_witness :
    (PaymentService.fetch_payment_links_service
        (.ok (linksResp (some "FAILURE") (some "Invalid request") none))
      = "Failed to fetch payment links: Invalid request"
    ∧ "Failed to fetch payment links: Invalid request" ≠ "No payment links found.")
    ∧ (RefundService.fetch_refund_list_service "MID123"
        "2024-01-01T00:00:00+05:30" "2024-01-07T00:00:00+05:30"
        (.parsed { status := some "SUCCESS", count := none, orders := some [],
                   errorMessage := none })
      = "No refunds found for the given date range.")
    ∧ (OrderListService.fetch_order_list_service 1
        (.parsed { resultStatus := some "FAILURE", resultMsg := none,
                   orders := none })
      = "Error fetching order list: Unknown error"
    ∧ ("Error fetching order list: " ++ (none : Option String).getD "Unknown error")
        ≠ "No orders found for the given criteria.") :=
  ⟨c5_empty_vs_failure_distinct.2.1 "FAILURE" "Invalid request" none (by decide),
   c5_empty_vs_failure_distinct.2.2.2.2.1 "MID123"
     "2024-01-01T00:00:00+05:30" "2024-01-07T00:00:00+05:30" none none
     (by decide) (by decide) (by decide),
   c5_empty_vs_failure_distinct.2.2.2.2.2.2.2 1 (some "FAILURE") none none
     (by decide)⟩

/-- C6: both dates supplied (truthy) are passed through unchanged regardless
of `time_range`; otherwise the pair is recomputed as
(`now - int(time_range)` days, `now`), each formatted with the fixed
`+05:30` offset — and at the fixed instant 2024-01-15T10:00:00+05:30 with
`time_range = "7"` this yields 2024-01-08T10:00:00+05:30 and
2024-01-15T10:00:00+05:30. -/
theorem c6_date_range_resolution :
    (∀ (now : Int) (sv ev time_range : String), sv ≠ "" → ev ≠ "" →
      resolveDateRange now (some sv) (some ev) time_range = .ok (sv, ev))
    ∧ (∀ (now : Int) (s e : Option String) (tr : String) (k : Int),
        parseIntPy tr = .ok k → (pyTruthy s && pyTruthy e) = false →
        resolveDateRange now s e tr
          = .ok (formatIST (now - k * 86400), formatIST now))
    ∧ resolveDateRange (mkIST 2024 1 15 10 0 0) none none "7"
        = .ok ("2024-01-08T10:00:00+05:30", "2024-01-15T10:00:00+05:30") := by
  refine ⟨?_, ?_, rfl⟩
  · intro now sv ev tr hsv hev
    simp [resolveDateRange, pyTruthy, hsv, hev]
  · intro now s e tr k hparse hcond
    simp [resolveDateRange, hcond, DateService.get_date_by_time_range,
      DateService.get_current_date, hparse, exceptOkBind]

/-- C6 witness: the theorem applied at concrete inputs, with every
hypothesis discharged there. -/
theorem c6_date_range_resolution_witness :
    resolveDateRange 0 (some "2024-02-01T00:00:00+05:30")
        (some "2024-03-01T00:00:00+05:30") "999"
      = .ok ("2024-02-01T00:00:00+05:30", "2024-03-01T00:00:00+05:30")
    ∧ resolveDateRange (mkIST 2024 1 15 10 0 0) none none "7"
        = .ok ("2024-01-08T10:00:00+05:30", "2024-01-15T10:00:00+05:30") :=
  ⟨c6_date_range_resolution.1 0 "2024-02-01T00:00:00+05:30"
      "2024-03-01T00:00:00+05:30" "999" (by decide) (by decide),
   c6_date_range_resolution.2.2⟩

/-- C7: in the signed create-link body, `linkType` is `"FIXED"` exactly when
an amount is given and `"GENERIC"` otherwise, and the `"amount"` key is in
the body exactly when an amount is given — in particular it is omitted
entirely (not null, not empty) when the amount is absent. -/
theorem c7_link_type_and_amount_key :
    ∀ (mid r p : String) (e m a : Option String),
      ((PaymentService.create_payment_link_body mid r p e m a).lookup "linkType"
          = some (.jstr (if a = none then "GENERIC" else "FIXED")))
      ∧ ((PaymentService.create_payment_link_body mid r p e m a).lookup "linkType"
          = some (.jstr "FIXED") ↔ a ≠ none)
      ∧ (a = none → "amount"
          ∉ (PaymentService.create_payment_link_body mid r p e m a).map Prod.fst)
      ∧ (a ≠ none → "amount"
          ∈ (PaymentService.create_payment_link_body mid r p e m a).map Prod.fst) := by
  intro mid r p e m a
  refine ⟨rfl, ?_, ?_, ?_⟩
  · cases a with
    | none =>
      show some (JVal.jstr "GENERIC") = some (JVal.jstr "FIXED")
        ↔ (none : Option String) ≠ none
      simp
    | some x =>
      show some (JVal.jstr "FIXED") = some (JVal.jstr "FIXED")
        ↔ some x ≠ none
      simp
  · intro ha
    subst ha
    simp [PaymentService.create_payment_link_body]
  · intro ha
    cases a with
    | none => exact absurd rfl ha
    | some x => simp [PaymentService.create_payment_link_body]

/-- C7 witness: the theorem applied at concrete inputs, with the
conditional parts discharged there. -/
theorem c7_link_type_and_amount_key_witness :
    ((PaymentService.create_payment_link_body "M1" "Asha" "Consulting"
        none none (some "10")).lookup "linkType" = some (.jstr "FIXED"))
    ∧ ("amount" ∉ (PaymentService.create_payment_link_body "M1" "Asha"
        "Consulting" (some "a@x.com") none none).map Prod.fst)
    ∧ ("amount" ∈ (PaymentService.create_payment_link_body "M1" "Asha"
        "Consulting" none none (some "10")).map Prod.fst) :=
  ⟨(c7_link_type_and_amount_key "M1" "Asha" "Consulting" none none
      (some "10")).2.1.mpr (by simp),
   (c7_link_type_and_amount_key "M1" "Asha" "Consulting" (some "a@x.com")
      none none).2.2.1 rfl,
   (c7_link_type_and_amount_key "M1" "Asha" "Consulting" none none
      (some "10")).2.2.2 (by simp)⟩

/-- C9: `initiate_refund` classifies a parsed response by
`body.resultInfo.resultStatus`: exactly `"PENDING"` gives the
pending-success text, exactly `"TXN_FAILURE"` gives the failure text, and
anything else — including `"SUCCESS"` and a missing status — gives the
unexpected-response text. -/
theorem c9_initiate_refund_classification :
    ∀ resp : RefundInitResp,
      (resp.resultStatus = some "PENDING" →
        RefundService.initiate_refund_service (.ok resp)
          = "Refund initiated successfully and is pending:\n"
              ++ refundStatusMessage resp)
      ∧ (resp.resultStatus = some "TXN_FAILURE" →
        RefundService.initiate_refund_service (.ok resp)
          = "Refund initiation failed:\n" ++ refundStatusMessage resp)
      ∧ (resp.resultStatus ≠ some "PENDING" →
          resp.resultStatus ≠ some "TXN_FAILURE" →
        RefundService.initiate_refund_service (.ok resp)
          = "Unexpected response:\n" ++ refundStatusMessage resp)
      ∧ (resp.resultStatus = some "SUCCESS" →
        RefundService.initiate_refund_service (.ok resp)
          = "Unexpected response:\n" ++ refundStatusMessage resp)
      ∧ (resp.resultStatus = none →
        RefundService.initiate_refund_service (.ok resp)
          = "Unexpected response:\n" ++ refundStatusMessage resp) := by
  intro resp
  refine ⟨fun h => ?_, fun h => ?_, fun h1 h2 => ?_, fun h => ?_, fun h => ?_⟩
  · simp [RefundService.initiate_refund_service, h]
  · simp [RefundService.initiate_refund_service, h]
  · simp [RefundService.initiate_refund_service, h1, h2]
  · simp [RefundService.initiate_refund_service, h]
  · simp [RefundService.initiate_refund_service, h]

/-- C9 witness: the theorem applied at concrete responses, with each
hypothesis discharged there. -/
theorem c9_initiate_refund_classification_witness :
    RefundService.initiate_refund_service
        (.ok { resultStatus := some "SUCCESS", resultMsg := some "Refund Successful",
               resultCode := some "10", refundId := some "R1",
               txnId := some "T1", refundAmount := some "10.00" })
      = "Unexpected response:\n" ++ refundStatusMessage
          { resultStatus := some "SUCCESS", resultMsg := some "Refund Successful",
            resultCode := some "10", refundId := some "R1",
            txnId := some "T1", refundAmount := some "10.00" }
    ∧ RefundService.initiate_refund_service
        (.ok { resultStatus := some "TXN_FAILURE", resultMsg := some "Invalid refund amount",
               resultCode := some "617", refundId := none,
               txnId := none, refundAmount := none })
      = "Refund initiation failed:\n" ++ refundStatusMessage
          { resultStatus := some "TXN_FAILURE", resultMsg := some "Invalid refund amount",
            resultCode := some "617", refundId := none,
            txnId := none, refundAmount := none } :=
  ⟨(c9_initiate_refund_classification
      { resultStatus := some "SUCCESS", resultMsg := some "Refund Successful",
        resultCode := some "10", refundId := some "R1",
        txnId := some "T1", refundAmount := some "10.00" }).2.2.2.1 rfl,
   (c9_initiate_refund_classification
      { resultStatus := some "TXN_FAILURE", resultMsg := some "Invalid refund amount",
        resultCode := some "617", refundId := none,
        txnId := none, refundAmount := none }).2.1 rfl⟩

/-- Dropping a skipped record from the refund-list fold. -/
theorem foldl_refundStep_skip (init : String) (pre post : List RefundRec)
    (bad : RefundRec) (h : formatRefundRec bad = none) :
    List.foldl refundStep init (pre ++ bad :: post)
      = List.foldl refundStep init (pre ++ post) := by
  rw [List.foldl_append, List.foldl_append, List.foldl_cons]
  congr 1
  simp [refundStep, h]

/-- The success branch of the refund-list transport part on a non-empty
record list is the fold of `refundStep` over the records. -/
theorem refund_list_success_cons (c : String) (em : Option String)
    (b : RefundRec) (l : List RefundRec) :
    RefundService.fetch_refund_list_transport_part
        (.parsed { status := some "SUCCESS", count := some c,
                   orders := some (b :: l), errorMessage := em })
      = List.foldl refundStep ("Refunds List (Count: " ++ c ++ ")") (b :: l) :=
  rfl

/-- C10: on a gateway success with a non-empty record list, a record missing
one of its seven fields is silently dropped from the formatted output while
the remaining records are still listed — the result is exactly the fold over
the other records, with no error text for the skipped one. -/
theorem c10_malformed_refund_records_skipped :
    ∀ (mid sd ed c : String) (em : Option String) (pre post : List RefundRec)
      (bad : RefundRec),
      mid ≠ "" → sd ≠ "" → ed ≠ "" → formatRefundRec bad = none →
      RefundService.fetch_refund_list_service mid sd ed
          (.parsed { status := some "SUCCESS", count := some c,
                     orders := some (pre ++ bad :: post), errorMessage := em })
        = List.foldl refundStep ("Refunds List (Count: " ++ c ++ ")")
            (pre ++ post) := by
  intro mid sd ed c em pre post bad hm hs he hbad
  rw [fetch_refund_list_service_validated mid sd ed hm hs he]
  obtain ⟨b, l, hl⟩ : ∃ b l, pre ++ bad :: post = b :: l := by
    cases pre <;> exact ⟨_, _, rfl⟩
  rw [hl, refund_list_success_cons, ← hl]
  exact foldl_refundStep_skip _ pre post bad hbad

/-- A well-formed sample refund record. -/
def sampleRefundRec : RefundRec :=
  { orderId := some "ORD1", refundId := some "REF1", refId := some "RFID1",
    txnAmount := some "100.00", refundAmount := some "50.00",
    acceptRefundStatus := some "SUCCESS",
    acceptRefundTimeStamp := some "2024-01-05 10:00:00" }

/-- A refund record missing its `orderId` field. -/
def missingFieldRefundRec : RefundRec :=
  { orderId := none, refundId := some "REF2", refId := some "RFID2",
    txnAmount := some "100.00", refundAmount := some "50.00",
    acceptRefundStatus := some "SUCCESS",
    acceptRefundTimeStamp := some "2024-01-06 10:00:00" }

/-- C10 witness: the theorem applied at a concrete record list, with every
hypothesis discharged there. -/
theorem c10_malformed_refund_records_skipped_witness :
    RefundService.fetch_refund_list_service "MID123"
        "2024-01-01T00:00:00+05:30" "2024-01-07T00:00:00+05:30"
        (.parsed { status := some "SUCCESS", count := some "2",
                   orders := some [sampleRefundRec, missingFieldRefundRec],
                   errorMessage := none })
      = List.foldl refundStep ("Refunds List (Count: " ++ "2" ++ ")")
          [sampleRefundRec] :=
  c10_malformed_refund_records_skipped "MID123" "2024-01-01T00:00:00+05:30"
    "2024-01-07T00:00:00+05:30" "2" none [sampleRefundRec] []
    missingFieldRefundRec (by decide) (by decide) (by decide) rfl

end PaytmMCP
